import Mathlib

/-!
Verification of the feedback rule-matching engine and the question-session
state machine of the job-interview chatbot (src/streamlit_app.py), as a
shallow embedding in Lean 4.

Modelling conventions:
- Python strings are Lean `String`; Python's substring test `key in text`
  is the executable `strContains`, related below to the mathematical
  containment predicate `SubstringOf`.
- Python dicts keyed by language codes are association lists
  `List (String × String)`; `List.lookup` models `dict.get`/`dict[...]`.
- A Python `KeyError` that the design calls `ConfigurationError` /
  `CatalogError` is an `Except.error` value of `AppError`.
- Keyword arguments to `dict.get(k, d)` are evaluated eagerly in Python:
  in line 28 of the source, `rules["default"]["feedback"]["ja"]` is
  computed before the `.get`, so a default mapping lacking a "ja" entry
  raises even when the requested language is present. The embedding of
  `generate_feedback` mirrors this.
- Streamlit buttons rendered with `disabled=cond` model guarded
  transitions: a disabled button is a rejected transition
  (`AppError.invalidTransition`), an enabled one performs the state
  update in its handler.
-/

namespace Chatbot

/-- Errors of the design taxonomy; `indexError` models a Python
`IndexError` on out-of-range list access. -/
inductive AppError where
  | configurationError
  | catalogError
  | invalidTransition
  | indexError
deriving Repr, DecidableEq

/-- Boolean test that the first list is an initial segment of the second,
on characters. -/
def isPrefixOfChars : List Char → List Char → Bool
  | [], _ => true
  | _ :: _, [] => false
  | a :: as, b :: bs => a == b && isPrefixOfChars as bs

/-- Boolean test that `needle` occurs contiguously inside the second list,
scanning every suffix. -/
def containsChars (needle : List Char) : List Char → Bool
  | [] => isPrefixOfChars needle []
  | b :: bs => isPrefixOfChars needle (b :: bs) || containsChars needle bs

/-- Embedding of Python's `needle in haystack` on strings: case-sensitive
exact substring containment, no tokenization, no normalization. -/
def strContains (haystack needle : String) : Bool :=
  containsChars needle.data haystack.data

/-- Mathematical statement that `needle` is a contiguous substring of
`haystack`. -/
def SubstringOf (needle haystack : String) : Prop :=
  ∃ s t, s ++ needle.data ++ t = haystack.data

/-- One feedback rule: `{keywords: [...], feedback: {lang: text, ...}}`.
An absent `keywords` key in the source is read through
`rule.get("keywords", [])`, so absence coincides with the empty list. -/
structure Rule where
  keywords : List String
  feedback : List (String × String)
deriving Repr, DecidableEq

/-- The rule set: the `rules` list (absent key read as `[]` through
`rules.get("rules", [])`) and the `default -> feedback` mapping;
`none` models the `default` key or its `feedback` sub-key being absent,
in which case line 28 of the source raises. -/
structure RuleSet where
  rules : List Rule
  default_feedback : Option (List (String × String))
deriving Repr, DecidableEq

/-- Embedding of `any(key in question_text for key in rule.get("keywords", []))`. -/
def ruleMatches (r : Rule) (question_text : String) : Bool :=
  r.keywords.any (fun key => strContains question_text key)

/-- The first rule of the list that matches the question text, scanning in
defined order (the `for rule in rules.get("rules", [])` loop). -/
def firstMatch (question_text : String) : List Rule → Option Rule
  | [] => none
  | r :: rs => if ruleMatches r question_text then some r else firstMatch question_text rs

/-- Embedding of line 26 of the source:
`rule["feedback"].get(lang, rule["feedback"].get("ja", ""))`. Both `get`
calls are total, so eager evaluation of the fallback argument is
indistinguishable from lazy. -/
def ruleFeedbackFor (r : Rule) (lang : String) : String :=
  (List.lookup lang r.feedback).getD ((List.lookup "ja" r.feedback).getD "")

/-- Embedding of `generate_feedback` (source lines 22-28). The
`answer_text` parameter is accepted and ignored, exactly as in the
source. On the default path, `rules["default"]["feedback"]["ja"]` is
evaluated before `.get(lang, ...)` is applied (Python evaluates the
argument eagerly), so the "ja" entry of the default is demanded even
when `lang` is present. -/
def generate_feedback (question_text answer_text : String) (rules : RuleSet)
    (lang : String) : Except AppError String :=
  match firstMatch question_text rules.rules with
  | some r => .ok (ruleFeedbackFor r lang)
  | none =>
    match rules.default_feedback with
    | none => .error .configurationError
    | some fb =>
      match List.lookup "ja" fb with
      | none => .error .configurationError
      | some vja => .ok ((List.lookup lang fb).getD vja)

/- ------------------------------------------------------------------ -/
/- Session data model and state machine                                 -/
/- ------------------------------------------------------------------ -/

/-- Embedding of the `QAItem` dataclass (source lines 31-37). -/
structure QAItem where
  q_ja : String
  q_en : String
  answer : String
  feedback_ja : String
  feedback_en : String
deriving Repr, DecidableEq

/-- One raw catalog record from `questions.json`: a dict whose required
keys "ja" and "en" may be absent (`none`). -/
structure RawQuestion where
  ja : Option String
  en : Option String
deriving Repr, DecidableEq

/-- The session state held in `st.session_state`: display language, the
cursor `index`, the item list `qa`, and the `timestamp` used as the
session id for exported artifact names. -/
structure SessionState where
  lang : String
  index : Nat
  qa : List QAItem
  timestamp : String
deriving Repr, DecidableEq

/-- Embedding of the list comprehension
`[QAItem(q_ja=q["ja"], q_en=q["en"]) for q in questions_raw]`
(source lines 46-48): records are consumed in catalog order; a record
missing the "ja" or the "en" key raises (a `KeyError`, the design's
`CatalogError`). -/
def buildItems : List RawQuestion → Except AppError (List QAItem)
  | [] => .ok []
  | q :: qs =>
    match q.ja, q.en with
    | some j, some e =>
      match buildItems qs with
      | .ok rest => .ok (⟨j, e, "", "", ""⟩ :: rest)
      | .error err => .error err
    | _, _ => .error .catalogError

/-- Embedding of `init_state` (source lines 40-50) on a fresh
`st.session_state` (no keys present, so every branch assigns): language
"ja", index 0, items built from the catalog, and the clock reading `now`
(the value of `dt.datetime.now().strftime("%Y-%m-%d_%H%M%S")`, passed in
as the external clock is an input of the model) as the session id. -/
def init_state (questions_raw : List RawQuestion) (now : String) :
    Except AppError SessionState :=
  match buildItems questions_raw with
  | .ok items => .ok { lang := "ja", index := 0, qa := items, timestamp := now }
  | .error e => .error e

/-- Embedding of the Reset handler (source lines 151-156):
`st.session_state.clear()` followed by `init_state(load_questions())`
rebuilds everything from the original (cached) catalog; `now` is the
clock reading at the time of the reset. -/
def reset (questions_raw : List RawQuestion) (now : String) :
    Except AppError SessionState :=
  init_state questions_raw now

/-- Embedding of the Next button (source lines 110-113): it is rendered
with `disabled=(idx >= n-1)`, modelled as the rejected transition; when
enabled the handler sets `index += 1`. On natural numbers the guard
`n - 1 <= idx` agrees with Python's integer `idx >= n-1` for every
reachable state (`idx >= 0`), including `n = 0` where both disable. -/
def next_q (s : SessionState) : Except AppError SessionState :=
  if s.qa.length - 1 ≤ s.index then .error .invalidTransition
  else .ok { s with index := s.index + 1 }

/-- Embedding of the Prev button (source lines 105-108):
`disabled=(idx == 0)`; when enabled the handler sets `index -= 1`. -/
def prev_q (s : SessionState) : Except AppError SessionState :=
  if s.index = 0 then .error .invalidTransition
  else .ok { s with index := s.index - 1 }

/-- Embedding of the See-Summary button (source lines 115-118), the
`finish()` transition: `disabled=(idx < n-1)` is the rejection; when
enabled the handler sets `index = n`, the Summary state. -/
def finish (s : SessionState) : Except AppError SessionState :=
  if s.index < s.qa.length - 1 then .error .invalidTransition
  else .ok { s with index := s.qa.length }

/-- A navigation click: forward (Next) or back (Prev). -/
inductive NavMove where
  | fwd
  | back
deriving Repr, DecidableEq

/-- Effect of one click: a rejected (disabled) transition leaves the state
unchanged, an accepted one applies its update. -/
def applyMove (s : SessionState) : NavMove → SessionState
  | .fwd =>
    match next_q s with
    | .ok s' => s'
    | .error _ => s
  | .back =>
    match prev_q s with
    | .ok s' => s'
    | .error _ => s

/-- Effect of a sequence of Next/Prev clicks, in order. -/
def runMoves : SessionState → List NavMove → SessionState
  | s, [] => s
  | s, m :: ms => runMoves (applyMove s m) ms

/-- Embedding of `ask_current_question` (source lines 71-88) restricted to
its state effect: read the current item (out of range would be a Python
`IndexError`), store the submitted text as its answer, and recompute both
feedback fields through `generate_feedback`, keyed on the item's `q_ja`
text for BOTH languages (source lines 84-85). -/
def ask_current_question (s : SessionState) (rules : RuleSet) (text : String) :
    Except AppError SessionState :=
  match s.qa.get? s.index with
  | none => .error .indexError
  | some item =>
    match generate_feedback item.q_ja text rules "ja" with
    | .error e => .error e
    | .ok fb_ja =>
      match generate_feedback item.q_ja text rules "en" with
      | .error e => .error e
      | .ok fb_en =>
        .ok { s with qa := s.qa.set s.index ⟨item.q_ja, item.q_en, text, fb_ja, fb_en⟩ }

/- ------------------------------------------------------------------ -/
/- Substring containment: the executable test agrees with the predicate -/
/- ------------------------------------------------------------------ -/

theorem isPrefixOfChars_iff (n l : List Char) :
    isPrefixOfChars n l = true ↔ ∃ t, n ++ t = l := by
  induction n generalizing l with
  | nil => simp [isPrefixOfChars]
  | cons a as ih =>
    cases l with
    | nil => simp [isPrefixOfChars]
    | cons b bs =>
      simp only [isPrefixOfChars, Bool.and_eq_true, beq_iff_eq, ih,
        List.cons_append, List.cons.injEq]
      constructor
      · rintro ⟨rfl, t, rfl⟩
        exact ⟨t, rfl, rfl⟩
      · rintro ⟨t, rfl, rfl⟩
        exact ⟨rfl, t, rfl⟩

theorem containsChars_iff (n l : List Char) :
    containsChars n l = true ↔ ∃ s t, s ++ n ++ t = l := by
  induction l with
  | nil =>
    simp only [containsChars, isPrefixOfChars_iff]
    constructor
    · rintro ⟨t, ht⟩
      exact ⟨[], t, ht⟩
    · rintro ⟨s, t, hst⟩
      rcases List.append_eq_nil.mp hst with ⟨h1, h2⟩
      rcases List.append_eq_nil.mp h1 with ⟨rfl, rfl⟩
      exact ⟨[], rfl⟩
  | cons b bs ih =>
    simp only [containsChars, Bool.or_eq_true, isPrefixOfChars_iff, ih]
    constructor
    · rintro (⟨t, ht⟩ | ⟨s, t, hst⟩)
      · exact ⟨[], t, ht⟩
      · exact ⟨b :: s, t, by simp only [List.cons_append]; rw [hst]⟩
    · rintro ⟨s, t, hst⟩
      cases s with
      | nil => exact Or.inl ⟨t, hst⟩
      | cons c s' =>
        rcases (List.cons.injEq ..).mp hst with ⟨rfl, hrest⟩
        exact Or.inr ⟨s', t, hrest⟩

/-- The executable substring test embeds exactly the case-sensitive
contiguous-substring relation. -/
theorem strContains_iff (haystack needle : String) :
    strContains haystack needle = true ↔ SubstringOf needle haystack :=
  containsChars_iff needle.data haystack.data

/-- A rule matches exactly when one of its keywords is a case-sensitive
substring of the question text. -/
theorem ruleMatches_iff (r : Rule) (qt : String) :
    ruleMatches r qt = true ↔ ∃ k ∈ r.keywords, SubstringOf k qt := by
  simp only [ruleMatches, List.any_eq_true, strContains_iff]

/-- `firstMatch` returns the rule at the least matching index. -/
theorem firstMatch_eq_of (qt : String) (rules : List Rule) (i : Nat) (r : Rule)
    (hi : rules.get? i = some r) (hr : ruleMatches r qt = true)
    (hmin : ∀ j r', j < i → rules.get? j = some r' → ruleMatches r' qt = false) :
    firstMatch qt rules = some r := by
  induction rules generalizing i with
  | nil => simp at hi
  | cons hd tl ih =>
    cases i with
    | zero =>
      simp only [List.get?] at hi
      cases hi
      simp [firstMatch, hr]
    | succ i' =>
      have hhd : ruleMatches hd qt = false := hmin 0 hd (Nat.succ_pos _) rfl
      simp only [firstMatch, hhd, Bool.false_eq_true, if_false]
      exact ih i' hi (fun j r' hj hg => hmin (j + 1) r' (Nat.succ_lt_succ hj) hg)

/-- Claim C1: the feedback engine scans the rules in their defined order;
a rule matches iff any of its keywords is a case-sensitive substring of
the question text; the engine returns the feedback of the first matching
rule, so the rule earliest in the ordered list wins when several match. -/
theorem feedback_first_matching_rule (rs : RuleSet) (qt a lang : String)
    (i : Nat) (r : Rule)
    (hi : rs.rules.get? i = some r)
    (hm : ∃ k ∈ r.keywords, SubstringOf k qt)
    (hfirst : ∀ j r', j < i → rs.rules.get? j = some r' →
      ∀ k ∈ r'.keywords, ¬ SubstringOf k qt) :
    (∀ r', ruleMatches r' qt = true ↔ ∃ k ∈ r'.keywords, SubstringOf k qt) ∧
    generate_feedback qt a rs lang = .ok (ruleFeedbackFor r lang) := by
  refine ⟨fun r' => ruleMatches_iff r' qt, ?_⟩
  have hr : ruleMatches r qt = true := (ruleMatches_iff r qt).mpr hm
  have hmin : ∀ j r', j < i → rs.rules.get? j = some r' → ruleMatches r' qt = false := by
    intro j r' hj hg
    rcases Bool.eq_false_or_eq_true (ruleMatches r' qt) with h | h
    · rcases (ruleMatches_iff r' qt).mp h with ⟨k, hk, hsub⟩
      exact absurd hsub (hfirst j r' hj hg k hk)
    · exact h
  have hfm : firstMatch qt rs.rules = some r := firstMatch_eq_of qt rs.rules i r hi hr hmin
  simp [generate_feedback, hfm]

/-- Witness for C1: the question text "abcd" contains a keyword of each of
two rules; the engine returns the first rule's feedback. -/
theorem feedback_first_matching_rule_witness :
    (∀ r', ruleMatches r' "abcd" = true ↔ ∃ k ∈ r'.keywords, SubstringOf k "abcd") ∧
    generate_feedback "abcd" "some answer"
      ⟨[⟨["ab"], [("ja", "first")]⟩, ⟨["cd"], [("ja", "second")]⟩],
        some [("ja", "D")]⟩ "ja"
      = .ok (ruleFeedbackFor ⟨["ab"], [("ja", "first")]⟩ "ja") :=
  feedback_first_matching_rule
    ⟨[⟨["ab"], [("ja", "first")]⟩, ⟨["cd"], [("ja", "second")]⟩], some [("ja", "D")]⟩
    "abcd" "some answer" "ja" 0 ⟨["ab"], [("ja", "first")]⟩ rfl
    ⟨"ab", by simp, [], ['c', 'd'], by decide⟩
    (by intro j r' hj; omega)

/-- Claim C2: the feedback engine is deterministic and answer-independent:
two calls with the same question text, rules and language but different
answer texts return identical results. -/
theorem generate_feedback_answer_independent (qt a₁ a₂ : String)
    (rs : RuleSet) (lang : String) :
    generate_feedback qt a₁ rs lang = generate_feedback qt a₂ rs lang := rfl

/-- Claim C10: when a rule matches but its feedback mapping defines neither
the requested language nor the base language "ja", the engine returns the
empty string: no error, no fall-through to the default. -/
theorem matched_rule_empty_feedback_spec (rs : RuleSet) (qt a lang : String)
    (r : Rule)
    (h : firstMatch qt rs.rules = some r)
    (h1 : List.lookup lang r.feedback = none)
    (h2 : List.lookup "ja" r.feedback = none) :
    generate_feedback qt a rs lang = .ok "" := by
  simp [generate_feedback, h, ruleFeedbackFor, h1, h2]

/-- Witness for C10: a rule with keyword "q" and an empty feedback mapping
matches "q"; the engine returns the empty string even though a default
exists. -/
theorem matched_rule_empty_feedback_spec_witness :
    generate_feedback "q" "ans" ⟨[⟨["q"], []⟩], some [("ja", "D")]⟩ "en" = .ok "" :=
  matched_rule_empty_feedback_spec ⟨[⟨["q"], []⟩], some [("ja", "D")]⟩
    "q" "ans" "en" ⟨["q"], []⟩ (by decide) rfl rfl

/-- Counterexample to claim C4 as stated: a rule set whose default feedback
mapping is absent does NOT make the engine fail — a question text matching
some rule (here via the empty keyword, a substring of every text) returns
that rule's feedback and the default is never consulted (source line 28 is
reached only when the scan at lines 24-26 falls through). -/
theorem default_absent_match_no_failure_cex :
    (⟨[⟨[""], [("ja", "x")]⟩], none⟩ : RuleSet).default_feedback = none ∧
    generate_feedback "any question" "a" ⟨[⟨[""], [("ja", "x")]⟩], none⟩ "ja"
      = .ok "x" :=
  ⟨rfl, rfl⟩

/-- Claim C4 (amended): when the question text matches no rule, the engine
fails with ConfigurationError exactly when the default feedback mapping is
absent or lacks a base-language "ja" entry (in particular when it is
empty); when the default defines a "ja" entry, the engine never fails on
non-matching text and returns the default feedback for the requested
language, falling back to the "ja" entry. Question texts that match some
rule never consult the default at all. -/
theorem default_config_error_spec (rs : RuleSet) (qt a lang : String)
    (hnm : firstMatch qt rs.rules = none) :
    (generate_feedback qt a rs lang = .error .configurationError ↔
      (rs.default_feedback = none ∨
        ∃ fb, rs.default_feedback = some fb ∧ List.lookup "ja" fb = none)) ∧
    (∀ fb vja, rs.default_feedback = some fb → List.lookup "ja" fb = some vja →
      generate_feedback qt a rs lang = .ok ((List.lookup lang fb).getD vja)) := by
  constructor
  · cases hd : rs.default_feedback with
    | none =>
      have hgf : generate_feedback qt a rs lang = .error .configurationError := by
        simp [generate_feedback, hnm, hd]
      rw [hgf]
      exact iff_of_true rfl (Or.inl rfl)
    | some fb =>
      cases hja : List.lookup "ja" fb with
      | none =>
        have hgf : generate_feedback qt a rs lang = .error .configurationError := by
          simp [generate_feedback, hnm, hd, hja]
        rw [hgf]
        exact iff_of_true rfl (Or.inr ⟨fb, rfl, hja⟩)
      | some vja =>
        have hgf : generate_feedback qt a rs lang
            = .ok ((List.lookup lang fb).getD vja) := by
          simp [generate_feedback, hnm, hd, hja]
        rw [hgf]
        constructor
        · intro habs
          cases habs
        · rintro (habs | ⟨fb', hfb', hnone⟩)
          · cases habs
          · cases hfb'
            rw [hja] at hnone
            cases hnone
  · intro fb vja hd hja
    simp [generate_feedback, hnm, hd, hja]

/-- Witness for C4 (amended): empty rule list (so nothing matches), a
default defining both languages; requesting "en" returns the default's
"en" entry. -/
theorem default_config_error_spec_witness :
    generate_feedback "anything" "a" ⟨[], some [("ja", "D"), ("en", "E")]⟩ "en"
      = .ok ((List.lookup "en" [("ja", "D"), ("en", "E")]).getD "D") :=
  (default_config_error_spec ⟨[], some [("ja", "D"), ("en", "E")]⟩
    "anything" "a" "en" rfl).2 [("ja", "D"), ("en", "E")] "D" rfl rfl

/-- Counterexample to claim C8 as stated: with no matching rule, a default
mapping that defines the requested language "en" but no "ja" entry makes
the engine fail instead of returning the "en" entry — Python evaluates the
fallback argument `rules["default"]["feedback"]["ja"]` of `.get` eagerly
(source line 28), so the "ja" entry is demanded even when `lang` is
present. -/
theorem default_eager_ja_cex :
    List.lookup "en" [("en", "E")] = some "E" ∧
    generate_feedback "q" "a" ⟨[], some [("en", "E")]⟩ "en"
      = .error .configurationError :=
  ⟨rfl, rfl⟩

/-- Claim C8 (amended): when a rule matches but its feedback mapping lacks
the requested language, the engine returns that rule's base-language "ja"
entry; when no rule matches and the default defines a "ja" entry (which is
always consulted, eagerly), the engine returns the default's entry for the
requested language, falling back to the "ja" entry when the requested
language is missing. -/
theorem language_fallback_spec (rs : RuleSet) (qt a lang : String) :
    (∀ r v, firstMatch qt rs.rules = some r →
      List.lookup lang r.feedback = none → List.lookup "ja" r.feedback = some v →
      generate_feedback qt a rs lang = .ok v) ∧
    (∀ fb v vja, firstMatch qt rs.rules = none → rs.default_feedback = some fb →
      List.lookup "ja" fb = some vja → List.lookup lang fb = some v →
      generate_feedback qt a rs lang = .ok v) ∧
    (∀ fb vja, firstMatch qt rs.rules = none → rs.default_feedback = some fb →
      List.lookup lang fb = none → List.lookup "ja" fb = some vja →
      generate_feedback qt a rs lang = .ok vja) := by
  refine ⟨?_, ?_, ?_⟩
  · intro r v hm hl hj
    simp [generate_feedback, hm, ruleFeedbackFor, hl, hj]
  · intro fb v vja hm hd hj hl
    simp [generate_feedback, hm, hd, hj, hl]
  · intro fb vja hm hd hl hj
    simp [generate_feedback, hm, hd, hj, hl]

/-- Witness for C8 (amended): a matched rule lacking the requested "en"
entry yields its "ja" entry. -/
theorem language_fallback_spec_witness :
    generate_feedback "xyz" "a" ⟨[⟨["y"], [("ja", "J")]⟩], some [("ja", "D")]⟩ "en"
      = .ok "J" :=
  (language_fallback_spec ⟨[⟨["y"], [("ja", "J")]⟩], some [("ja", "D")]⟩
    "xyz" "a" "en").1 ⟨["y"], [("ja", "J")]⟩ "J" rfl rfl rfl

/- ------------------------------------------------------------------ -/
/- Navigation helper lemmas                                             -/
/- ------------------------------------------------------------------ -/

theorem next_q_ok_iff (s : SessionState) (s' : SessionState) :
    next_q s = .ok s' ↔
      (s.index < s.qa.length - 1 ∧ s' = { s with index := s.index + 1 }) := by
  unfold next_q
  split
  · rename_i hg
    constructor
    · intro habs
      cases habs
    · rintro ⟨hlt, _⟩
      omega
  · rename_i hg
    constructor
    · intro hok
      injection hok with h
      exact ⟨by omega, h.symm⟩
    · rintro ⟨_, rfl⟩
      rfl

theorem prev_q_ok_iff (s : SessionState) (s' : SessionState) :
    prev_q s = .ok s' ↔
      (0 < s.index ∧ s' = { s with index := s.index - 1 }) := by
  unfold prev_q
  split
  · rename_i hg
    constructor
    · intro habs
      cases habs
    · rintro ⟨hlt, _⟩
      omega
  · rename_i hg
    constructor
    · intro hok
      injection hok with h
      exact ⟨by omega, h.symm⟩
    · rintro ⟨_, rfl⟩
      rfl

theorem applyMove_spec (s : SessionState) (m : NavMove) :
    (applyMove s m).qa = s.qa ∧
    (s.index < s.qa.length → (applyMove s m).index < s.qa.length) := by
  cases m
  · unfold applyMove next_q
    by_cases hg : s.qa.length - 1 ≤ s.index
    · rw [if_pos hg]
      exact ⟨rfl, fun h => h⟩
    · rw [if_neg hg]
      refine ⟨rfl, fun _ => ?_⟩
      show s.index + 1 < s.qa.length
      omega
  · unfold applyMove prev_q
    by_cases hg : s.index = 0
    · rw [if_pos hg]
      exact ⟨rfl, fun h => h⟩
    · rw [if_neg hg]
      refine ⟨rfl, fun h => ?_⟩
      show s.index - 1 < s.qa.length
      omega

theorem runMoves_spec (ms : List NavMove) (s : SessionState)
    (h : s.index < s.qa.length) :
    (runMoves s ms).qa = s.qa ∧ (runMoves s ms).index < s.qa.length := by
  induction ms generalizing s with
  | nil => exact ⟨rfl, h⟩
  | cons m ms ih =>
    have ha := applyMove_spec s m
    have h1 : (applyMove s m).index < (applyMove s m).qa.length := by
      rw [ha.1]
      exact ha.2 h
    have hrec := ih (applyMove s m) h1
    have hstep : runMoves s (m :: ms) = runMoves (applyMove s m) ms := rfl
    constructor
    · rw [hstep, hrec.1, ha.1]
    · rw [hstep]
      have := hrec.2
      rwa [ha.1] at this

/- ------------------------------------------------------------------ -/
/- Claims about the state machine                                       -/
/- ------------------------------------------------------------------ -/

/-- Claim C3: from any question state (`position < N`), `finish()` is
rejected with InvalidTransitionError exactly when `position < N-1`, and
succeeds — setting `position = N`, the Summary state — exactly when
`position == N-1`. -/
theorem finish_guard_spec (s : SessionState) (h : s.index < s.qa.length) :
    (finish s = .error .invalidTransition ↔ s.index < s.qa.length - 1) ∧
    (finish s = .ok { s with index := s.qa.length } ↔
      s.index = s.qa.length - 1) := by
  unfold finish
  by_cases hc : s.index < s.qa.length - 1
  · rw [if_pos hc]
    constructor
    · exact iff_of_true rfl hc
    · constructor
      · intro habs
        cases habs
      · intro heq
        omega
  · rw [if_neg hc]
    constructor
    · constructor
      · intro habs
        cases habs
      · intro hlt
        exact absurd hlt hc
    · exact iff_of_true rfl (by omega)

/-- Witness for C3: with two items and the cursor on the first,
`finish()` is rejected. -/
theorem finish_guard_spec_witness :
    finish ⟨"ja", 0, [⟨"q1", "p1", "", "", ""⟩, ⟨"q2", "p2", "", "", ""⟩], "t"⟩
      = .error .invalidTransition :=
  ((finish_guard_spec _ (by decide)).1).mpr (by decide)

/-- Claim C6: under any sequence of Next/Prev clicks from a question
state, the item list is untouched and `position` never leaves
`[0, N-1]` — in particular Next alone can never reach the Summary state
`position = N`; moreover Next succeeds exactly when `position < N-1`
(then `position` increases by 1) and Prev succeeds exactly when
`position > 0` (then `position` decreases by 1). -/
theorem nav_position_spec (s : SessionState) (ms : List NavMove)
    (h : s.index < s.qa.length) :
    ((runMoves s ms).qa = s.qa ∧ (runMoves s ms).index < s.qa.length) ∧
    (∀ s', next_q s = .ok s' ↔
      (s.index < s.qa.length - 1 ∧ s' = { s with index := s.index + 1 })) ∧
    (∀ s', prev_q s = .ok s' ↔
      (0 < s.index ∧ s' = { s with index := s.index - 1 })) :=
  ⟨runMoves_spec ms s h, fun s' => next_q_ok_iff s s', fun s' => prev_q_ok_iff s s'⟩

/-- Witness for C6: two items, cursor 0, clicks fwd-fwd-back-back: the
position stays below 2. -/
theorem nav_position_spec_witness :
    (runMoves ⟨"ja", 0, [⟨"a", "b", "", "", ""⟩, ⟨"c", "d", "", "", ""⟩], "t"⟩
        [NavMove.fwd, NavMove.fwd, NavMove.back, NavMove.back]).index
      < ((⟨"ja", 0, [⟨"a", "b", "", "", ""⟩, ⟨"c", "d", "", "", ""⟩], "t"⟩ :
          SessionState)).qa.length :=
  ((nav_position_spec _ [NavMove.fwd, NavMove.fwd, NavMove.back, NavMove.back]
    (by decide)).1).2

/- ------------------------------------------------------------------ -/
/- Catalog construction and reset                                       -/
/- ------------------------------------------------------------------ -/

theorem buildItems_fresh (catalog : List RawQuestion) (items : List QAItem)
    (h : buildItems catalog = .ok items) :
    ∀ it ∈ items, it.answer = "" ∧ it.feedback_ja = "" ∧ it.feedback_en = "" := by
  induction catalog generalizing items with
  | nil =>
    unfold buildItems at h
    cases h
    intro it hit
    cases hit
  | cons hd tl ih =>
    unfold buildItems at h
    cases hja : hd.ja with
    | none =>
      rw [hja] at h
      cases h
    | some j =>
      cases hen : hd.en with
      | none =>
        rw [hja, hen] at h
        cases h
      | some e =>
        rw [hja, hen] at h
        cases hrec : buildItems tl with
        | error err =>
          rw [hrec] at h
          cases h
        | ok rest =>
          rw [hrec] at h
          cases h
          intro it hit
          rcases List.mem_cons.mp hit with rfl | hmem
          · exact ⟨rfl, rfl, rfl⟩
          · exact ih rest hrec it hmem

theorem buildItems_error_of_bad (catalog : List RawQuestion) (q : RawQuestion)
    (hq : q ∈ catalog) (hbad : q.ja = none ∨ q.en = none) :
    buildItems catalog = .error .catalogError := by
  induction catalog with
  | nil => cases hq
  | cons hd tl ih =>
    unfold buildItems
    rcases List.mem_cons.mp hq with rfl | hmem
    · rcases hbad with hja | hen
      · rw [hja]
      · rw [hen]
        cases q.ja <;> rfl
    · cases hja : hd.ja with
      | none => rfl
      | some j =>
        cases hen : hd.en with
        | none => rfl
        | some e =>
          rw [ih hmem]

/-- Claim C9: a catalog containing a record missing one of the two
required fields ("ja" or "en") makes session construction fail with
CatalogError (the `KeyError` of `q["ja"]`/`q["en"]` at source line 47). -/
theorem catalog_missing_field_error (catalog : List RawQuestion) (now : String)
    (q : RawQuestion) (hq : q ∈ catalog) (hbad : q.ja = none ∨ q.en = none) :
    init_state catalog now = .error .catalogError := by
  unfold init_state
  rw [buildItems_error_of_bad catalog q hq hbad]

/-- Witness for C9: a one-record catalog whose record lacks the "en"
field. -/
theorem catalog_missing_field_error_witness :
    init_state [⟨some "q", none⟩] "2024-06-01_120000" = .error .catalogError :=
  catalog_missing_field_error [⟨some "q", none⟩] "2024-06-01_120000"
    ⟨some "q", none⟩ (by decide) (Or.inr rfl)

/-- Counterexample to claim C5 as stated: the session id is the clock
string `dt.datetime.now().strftime("%Y-%m-%d_%H%M%S")` (second
resolution); a session created at some clock reading and a reset issued
at the same clock reading carry the SAME session id, so the new id is not
unconditionally distinct from the prior one — nothing in the code
enforces distinctness. -/
theorem reset_same_clock_same_id_cex :
    init_state [⟨some "q1", some "p1"⟩] "2024-01-01_000000"
      = .ok ⟨"ja", 0, [⟨"q1", "p1", "", "", ""⟩], "2024-01-01_000000"⟩ ∧
    reset [⟨some "q1", some "p1"⟩] "2024-01-01_000000"
      = .ok ⟨"ja", 0, [⟨"q1", "p1", "", "", ""⟩], "2024-01-01_000000"⟩ :=
  ⟨rfl, rfl⟩

/-- Claim C5 (amended): `reset()` from any state discards all recorded
answers and feedback, rebuilds the session from the original catalog with
`position == 0` (and display language back to "ja"), and assigns the
current clock reading as the session id; the new id is distinct from the
prior session's id exactly when the clock strings differ — distinctness
is not otherwise enforced. -/
theorem reset_rebuild_spec (catalog : List RawQuestion) (now : String)
    (old : SessionState) (items : List QAItem)
    (h : buildItems catalog = .ok items) :
    reset catalog now = .ok ⟨"ja", 0, items, now⟩ ∧
    (∀ it ∈ items, it.answer = "" ∧ it.feedback_ja = "" ∧ it.feedback_en = "") ∧
    ((⟨"ja", 0, items, now⟩ : SessionState).timestamp ≠ old.timestamp ↔
      now ≠ old.timestamp) := by
  refine ⟨?_, buildItems_fresh catalog items h, Iff.rfl⟩
  unfold reset init_state
  rw [h]

/-- Witness for C5 (amended): resetting over a one-question catalog at a
fresh clock reading rebuilds the blank session. -/
theorem reset_rebuild_spec_witness :
    reset [⟨some "q1", some "p1"⟩] "2024-06-01_120000"
      = .ok ⟨"ja", 0, [⟨"q1", "p1", "", "", ""⟩], "2024-06-01_120000"⟩ :=
  (reset_rebuild_spec [⟨some "q1", some "p1"⟩] "2024-06-01_120000"
    ⟨"ja", 0, [], "old"⟩ [⟨"q1", "p1", "", "", ""⟩] rfl).1

/-- Claim C7: recording an answer on the current item overwrites that
item's answer, then recomputes and overwrites the item's feedback for
both supported languages via the feedback engine, keyed on the item's
primary-language (`q_ja`) question text for BOTH languages — the display
language `s.lang` is arbitrary and does not enter — and the cursor
`position` is unchanged. -/
theorem record_answer_spec (s : SessionState) (rules : RuleSet) (text : String)
    (item : QAItem) (fja fen : String)
    (hget : s.qa.get? s.index = some item)
    (hja : generate_feedback item.q_ja text rules "ja" = .ok fja)
    (hen : generate_feedback item.q_ja text rules "en" = .ok fen) :
    ask_current_question s rules text
      = .ok { s with qa := s.qa.set s.index ⟨item.q_ja, item.q_en, text, fja, fen⟩ } ∧
    (∀ s', ask_current_question s rules text = .ok s' → s'.index = s.index) := by
  have h1 : ask_current_question s rules text
      = .ok { s with qa := s.qa.set s.index ⟨item.q_ja, item.q_en, text, fja, fen⟩ } := by
    unfold ask_current_question
    simp only [hget, hja, hen]
  refine ⟨h1, ?_⟩
  intro s' hs'
  rw [h1] at hs'
  injection hs' with h2
  rw [← h2]

/-- Witness for C7: a one-item session in display language "en"; the
stored feedback pair comes from the engine applied to the item's `q_ja`
text, the old answer is overwritten and the cursor stays at 0. -/
theorem record_answer_spec_witness :
    ask_current_question ⟨"en", 0, [⟨"jiko", "Tell me", "old", "x", "y"⟩], "t"⟩
      ⟨[⟨["jiko"], [("ja", "J"), ("en", "E")]⟩], some [("ja", "D")]⟩ "hello"
      = .ok ⟨"en", 0, [⟨"jiko", "Tell me", "hello", "J", "E"⟩], "t"⟩ :=
  (record_answer_spec ⟨"en", 0, [⟨"jiko", "Tell me", "old", "x", "y"⟩], "t"⟩
    ⟨[⟨["jiko"], [("ja", "J"), ("en", "E")]⟩], some [("ja", "D")]⟩ "hello"
    ⟨"jiko", "Tell me", "old", "x", "y"⟩ "J" "E" rfl rfl rfl).1

end Chatbot
